import Mathlib

/-!
# Shallow embedding of `4riders/hatinh_reddit`

This file embeds the two source modules `src/reddit/core.py` and
`src/reddit/hatinh.py` as executable Lean definitions and proves the
specification claims about them.

Modelling conventions:
* Python strings are `String`; the seen-id sets (`set()` in Python) are
  `List String` with membership via `List.contains` (insertion into a set is
  modelled by consing the id).
* Calendar dates are modelled by their day number as an `Int`: the source
  compares ISO-format date strings (`str(datetime.date)`), and on the dates the
  program produces (years 1000–9999) string order coincides with date order, so
  an `Int` with the usual order is an order-faithful model.  `today` is passed
  as an explicit parameter wherever the source reads the clock.
* `datetime.date.fromtimestamp` (truncating a UTC timestamp to a calendar day)
  is modelled as flooring division of the timestamp by 86400.
* `upvote_ratio` (a Python float in [0,1]) is modelled as a rational `ℚ`;
  Python's float-to-int conversion `int(x)` truncates toward zero, modelled by
  `ratTrunc`.
* The PRAW transport (network) is a function parameter ("oracle") supplying the
  raw results each underlying query returns, so theorems quantify over every
  possible sequence of raw results.
* Generators (`yield`) are modelled by the list of yielded elements in yield
  order; a Python `assert` failure or uncaught exception is modelled by
  `Option`/`Except` with the failing branch mapped to `none`/`error`.
-/

/-- A raw platform post, as exposed by the transport collaborator
(`praw`'s submission object): exactly the attributes the source reads. -/
structure RawSubmission where
  id : String
  author : String
  subreddit : String
  created_utc : Int
  title : String
  selftext : String
  permalink : String
  url : String
  score : Int
  num_comments : Nat
  upvote_ratio : ℚ
  deriving DecidableEq, Repr

/-- An item returned by a user's `new` listing: either a submission or a
comment (`praw.models.reddit.comment.Comment`). -/
inductive RawItem where
  | submission (r : RawSubmission)
  | comment (id : String)
  deriving DecidableEq, Repr

/-- Python `int(x)` on a number: truncation toward zero. -/
def ratTrunc (q : ℚ) : ℤ :=
  if 0 ≤ q then ⌊q⌋ else ⌈q⌉

/-- Model of `datetime.date.fromtimestamp`: truncate a timestamp (seconds) to
its calendar day, represented by the day number. -/
def dateFromTimestamp (t : Int) : Int :=
  t.fdiv 86400

/-- `RedditSubmission` (src/reddit/core.py): the normalized value-object view
of a raw post. -/
structure RedditSubmission where
  redditUsername : String
  subreddit : String
  created : Int
  title : String
  text : String
  url : String
  external_url : String
  upvotes : Int
  comments : Nat
  id : String
  downvotes : Int
  deriving DecidableEq, Repr

/-- `RedditSubmission.__init__` (src/reddit/core.py lines 133–154): copy the
raw attributes and derive `downvotes`: `0` when `upvote_ratio == 0`, else
`int(score / upvote_ratio) - score` (Python `int` truncates toward zero). -/
def RedditSubmission.ofRaw (submission : RawSubmission) : RedditSubmission :=
  { redditUsername := submission.author
    subreddit := submission.subreddit
    created := dateFromTimestamp submission.created_utc
    title := submission.title
    text := submission.selftext
    url := submission.permalink
    external_url := submission.url
    upvotes := submission.score
    comments := submission.num_comments
    id := submission.id
    downvotes :=
      if submission.upvote_ratio = 0 then 0
      else ratTrunc ((submission.score : ℚ) / submission.upvote_ratio) - submission.score }

/-- Python's `in` on strings: substring containment, via list infix. -/
def strContains (needle hay : String) : Bool :=
  decide (needle.data <:+: hay.data)

/-- Python `str.lower()`, modelled character by character (ASCII case map;
this is `String.toLower` restated so that it evaluates by structural
recursion). -/
def strToLower (s : String) : String :=
  ⟨s.data.map Char.toLower⟩

/-- `query_in_submission` (src/reddit/core.py lines 66–78): the exact-match
filter; the lowered query must occur in the lowered title or lowered selftext. -/
def query_in_submission (q : String) (s : RawSubmission) : Bool :=
  let ql := strToLower q
  let in_title := strContains ql (strToLower s.title)
  let in_text := strContains ql (strToLower s.selftext)
  in_title || in_text

/-- The quoted, lowered search string `'"{}"'.format(query.lower())` sent to
the transport (src/reddit/core.py line 64). -/
def searchQueryFor (query : String) : String :=
  "\"" ++ strToLower query ++ "\""

/-- The sort cascade (src/reddit/core.py lines 80–83). -/
def searchSorts (search_sort : Option String) : List String :=
  match search_sort with
  | none => ["relevance", "hot", "top", "new", "comments"]
  | some s => [s]

/-- The transport oracle: what
`self.reddit.subreddit(name).search(query, sort, time_filter, limit)` returns
for each argument tuple (src/reddit/core.py `_search`, lines 32–46). -/
def Transport := String → String → String → String → Option Nat → List RawSubmission

/-- The mutable state of one `Reddit.search` call: the seen-id set, the list of
submissions yielded so far (in yield order), and the log of underlying
`_search` calls issued, as (subreddit, sort) pairs. -/
structure SearchState where
  seen : List String
  out : List RedditSubmission
  queries : List (String × String)
  deriving Repr

/-- The body of the per-submission loop in `Reddit.search`
(src/reddit/core.py lines 90–95 and 98–103): skip ids already seen, mark the
id seen, and yield the wrapped submission when the exact-match filter holds. -/
def processResults (query : String) (raws : List RawSubmission) (st : SearchState) :
    SearchState :=
  raws.foldl
    (fun st submission =>
      if st.seen.contains submission.id then st
      else
        let seen := submission.id :: st.seen
        if query_in_submission query submission then
          { st with seen := seen, out := st.out ++ [RedditSubmission.ofRaw submission] }
        else { st with seen := seen })
    st

/-- One iteration of the per-subreddit loop of `Reddit.search`
(src/reddit/core.py lines 88–103): run the cascade's first sort, then, only if
the cumulative seen-id count has reached 250, run the remaining sorts.  Each
issued `_search` call is appended to the query log. -/
def searchSubreddit (transport : Transport) (search_query query time_filter : String)
    (limit : Option Nat) (search_sorts : List String) (subreddit_name : String)
    (st : SearchState) : SearchState :=
  match search_sorts with
  | [] => st
  | sort0 :: rest =>
    let st := processResults query (transport search_query subreddit_name sort0 time_filter limit)
      { st with queries := st.queries ++ [(subreddit_name, sort0)] }
    if 250 ≤ st.seen.length then
      rest.foldl
        (fun st sort =>
          processResults query (transport search_query subreddit_name sort time_filter limit)
            { st with queries := st.queries ++ [(subreddit_name, sort)] })
        st
    else st

/-- `Reddit.search` (src/reddit/core.py lines 48–103).  The generator is
modelled by the final `SearchState`: `.out` is the sequence of yielded
`RedditSubmission`s, `.queries` the underlying queries issued.  The Python
`isinstance(subreddits, str)` promotion is modelled by always taking a list. -/
def Reddit.search (transport : Transport) (query : String) (subreddits : List String)
    (time_filter : String := "year") (limit : Option Nat := none)
    (search_sort : Option String := none) : SearchState :=
  let search_query := searchQueryFor query
  let sorts := searchSorts search_sort
  subreddits.foldl
    (fun st subreddit_name =>
      searchSubreddit transport search_query query time_filter limit sorts subreddit_name st)
    ⟨[], [], []⟩

/-- The state of one `Reddit.search_for_multiple_terms` call: its own seen-id
set `s`, the yielded submissions, and the log of terms for which an underlying
`self.search` call was issued. -/
structure MultiTermState where
  s : List String
  out : List RedditSubmission
  issued : List String
  deriving Repr

/-- The per-result body of the inner loop of `search_for_multiple_terms`
(src/reddit/core.py lines 121–128): skip ids already yielded for an earlier
term, otherwise record the id and yield the submission. -/
def multiTermInnerStep (st : MultiTermState) (submission : RedditSubmission) :
    MultiTermState :=
  if st.s.contains submission.id then st
  else { st with s := submission.id :: st.s, out := st.out ++ [submission] }

/-- The per-term body of the loop of `search_for_multiple_terms`
(src/reddit/core.py lines 118–128): `if not query: continue`, otherwise issue
one underlying `self.search` call for the term and process its results. -/
def multiTermStep (transport : Transport) (subreddit_name : String)
    (search_sort : Option String) (st : MultiTermState) (query : String) :
    MultiTermState :=
  if query.isEmpty then st
  else
    let results := (Reddit.search transport query [subreddit_name]
      "year" none search_sort).out
    results.foldl multiTermInnerStep { st with issued := st.issued ++ [query] }

/-- `Reddit.search_for_multiple_terms` (src/reddit/core.py lines 105–128):
skip falsy (empty) terms, search each remaining term independently, and yield
each result whose id was not already yielded for an earlier term. -/
def Reddit.search_for_multiple_terms (transport : Transport) (search_terms : List String)
    (subreddit_name : String) (search_sort : Option String := none) : MultiTermState :=
  search_terms.foldl (multiTermStep transport subreddit_name search_sort) ⟨[], [], []⟩

/-!
## src/reddit/hatinh.py
-/

/-- Characters at which a URL's netloc ends in `urllib.parse`. -/
def isNetlocEnd (c : Char) : Bool :=
  c = '/' || c = '?' || c = '#'

/-- Characters at which a URL's path ends (query or fragment delimiter). -/
def isPathEnd (c : Char) : Bool :=
  c = '?' || c = '#'

/-- A character allowed inside a URL scheme after its leading letter. -/
def isSchemeChar (c : Char) : Bool :=
  c.isAlphanum || c = '+' || c = '-' || c = '.'

/-- Strip a leading `scheme:` from a URL, as `urllib.parse.urlsplit` does: a
scheme is a leading letter followed by scheme characters, up to a colon. -/
def stripScheme (l : List Char) : List Char :=
  match l.findIdx? (fun c => c = ':') with
  | none => l
  | some i =>
    let pre := l.take i
    match pre with
    | [] => l
    | c :: cs =>
      if c.isAlpha && cs.all isSchemeChar then l.drop (i + 1) else l

/-- The result of `urllib.parse.urlparse`, restricted to the `(netloc, path)`
components the source reads.  A `str` argument yields a `ParseResult` with
`str` components; a non-`str` falsy argument such as `None` is sent through
the bytes coercion path (`_coerce_args`/`_decode_args`/`_encode_result`) and
yields a `ParseResultBytes` whose components are `bytes`. -/
inductive ParsedUrl where
  | strResult (netloc path : String)
  | bytesResult (netloc path : List Nat)
  deriving DecidableEq, Repr

/-- The repr of a Python `bytes` value, which is what `str.format` inserts for
a bytes argument: `b'...'` around the bytes' characters (the empty bytes
render as `b''`).  Escaping of quote/backslash/non-printable bytes is not
modelled: the only bytes value the embedded program produces is empty. -/
def bytesRepr (b : List Nat) : String :=
  "b\x27" ++ ⟨b.map Char.ofNat⟩ ++ "\x27"

/-- Model of `urllib.parse.urlparse` on the two argument kinds the source can
pass.  `urlparse(None)` returns `ParseResultBytes(netloc=b'', path=b'')`: the
falsy non-`str` argument is decoded to `''`, split, and the components encoded
back to bytes.  For a `str` URL: parameters, queries and fragments are cut off
the path; a netloc is present only after a literal `//`. -/
def urlparseNetlocPath (url : Option String) : ParsedUrl :=
  match url with
  | none => ParsedUrl.bytesResult [] []
  | some s =>
    let l := stripScheme s.data
    if l.take 2 = ['/', '/'] then
      let l' := l.drop 2
      let netloc := l'.takeWhile (fun c => !isNetlocEnd c)
      let rest := l'.dropWhile (fun c => !isNetlocEnd c)
      let path := rest.takeWhile (fun c => !isPathEnd c)
      ParsedUrl.strResult ⟨netloc⟩ ⟨path⟩
    else
      ParsedUrl.strResult "" ⟨l.takeWhile (fun c => !isPathEnd c)⟩

/-- `Game` (src/reddit/hatinh.py lines 10–25): a tracked entity with its
normalized URL. -/
structure Game where
  gameId : Nat
  name : String
  simple_url : String
  url : Option String
  deriving DecidableEq, Repr

/-- `Game.__init__` (src/reddit/hatinh.py lines 11–25): parse the URL, join
netloc and path with `'{}{}'.format` — which inserts `str` components verbatim
and `bytes` components as their repr, so `urlparse(None)`'s `(b'', b'')` gives
the 6-character string `b''b''` — and strip one trailing slash.  The slash
test is `simple_url[-1] == '/'`, which raises `IndexError` when `simple_url`
is the empty string (as it is for a `str` URL whose host+path is empty) —
modelled by `Except.error "IndexError"`. -/
def Game.mk' (gameId : Nat) (name : String) (url : Option String := none) :
    Except String Game :=
  let simple_url :=
    match urlparseNetlocPath url with
    | ParsedUrl.strResult netloc path => netloc ++ path
    | ParsedUrl.bytesResult netloc path => bytesRepr netloc ++ bytesRepr path
  if simple_url.isEmpty then Except.error "IndexError"
  else
    let simple_url := if simple_url.back = '/' then simple_url.dropRight 1 else simple_url
    Except.ok { gameId := gameId, name := name, simple_url := simple_url, url := url }

/-- `RedditAggregationData` (src/reddit/hatinh.py lines 31–53): the per-(game,
date) aggregate record.  All metric fields are Python ints, modelled as `Int`. -/
structure RedditAggregationData where
  gameId : Nat
  date : Int
  comments : Int
  submissions : Int
  upvotes : Int
  downvotes : Int
  date_of_request : Int
  deriving DecidableEq, Repr

/-- `RedditAggregationData.__init__` (src/reddit/hatinh.py lines 32–53): build
`gameData = dict(zip(types, map(sum, zip(*rows))))` from the rows
`(1, comments, upvotes, downvotes)` and read the four sums back out.  On an
empty submission list, `zip(*[])` is empty, so `gameData` is the empty dict and
the lookup `gameData['comments']` raises `KeyError` — modelled by `none`.  For
a non-empty list, `zip(*rows)` is the transpose, so each field is the sum of
one projection of the rows.  `date_of_request` is `str(datetime.date.today())`,
modelled by the explicit `today` parameter. -/
def RedditAggregationData.mk' (today : Int) (gameId : Nat) (date : Int)
    (submissions : List RedditSubmission) : Option RedditAggregationData :=
  let rows := submissions.map
    (fun submission => ((1 : Int), (submission.comments : Int),
      submission.upvotes, submission.downvotes))
  match rows with
  | [] => none
  | _ =>
    some
      { gameId := gameId
        date := date
        comments := (rows.map (fun r => r.2.1)).sum
        submissions := (rows.map (fun r => r.1)).sum
        upvotes := (rows.map (fun r => r.2.2.1)).sum
        downvotes := (rows.map (fun r => r.2.2.2)).sum
        date_of_request := today }

/-- `clean_subreddit_name` (src/reddit/hatinh.py lines 91–99): strip
whitespace, then a leading `r/` (two characters).  `str.strip`, `startswith`
and the `[2:]` slice are modelled by structurally recursive character-list
operations. -/
def clean_subreddit_name (x : String) : String :=
  let l := ((x.data.dropWhile Char.isWhitespace).reverse.dropWhile
    Char.isWhitespace).reverse
  if l.take 2 = ['r', '/'] then ⟨l.drop 2⟩ else ⟨l⟩

/-- Append a submission to its date's bucket in an insertion-ordered
association list, as `defaultdict(list)` keyed by `submission.created` does in
`FetchRedditDataForGames` (src/reddit/hatinh.py lines 78–80). -/
def insertByCreated (acc : List (Int × List RedditSubmission)) (s : RedditSubmission) :
    List (Int × List RedditSubmission) :=
  match acc with
  | [] => [(s.created, [s])]
  | (d, l) :: rest =>
    if d = s.created then (d, l ++ [s]) :: rest else (d, l) :: insertByCreated rest s

/-- Group a stream of submissions by `created` date, preserving the
`defaultdict(list)` insertion-order semantics of `FetchRedditDataForGames`. -/
def groupByCreated (submissions : List RedditSubmission) :
    List (Int × List RedditSubmission) :=
  submissions.foldl insertByCreated []

/-- The mapping from period letter to day count,
`{'D': 1, 'W': 7, 'M': 30, 'Y': 365}.get(collection_period)`
(src/reddit/hatinh.py lines 114 and 148); `none` exactly when the preceding
`assert collection_period in ('D','W','M','Y')` fails. -/
def daysOfPeriod (collection_period : String) : Option Int :=
  if collection_period = "D" then some 1
  else if collection_period = "W" then some 7
  else if collection_period = "M" then some 30
  else if collection_period = "Y" then some 365
  else none

/-- `FetchRedditSubmissionsInSubreddits` (src/reddit/hatinh.py lines 102–133):
list each subreddit's new submissions, deduplicate by id across the whole
call, convert, and keep those strictly newer than `today - days`.  The
listing oracle stands for `reddit.reddit.subreddit(name).new(limit=limit)`;
the assert on the period is modelled by `Option`. -/
def FetchRedditSubmissionsInSubreddits (listing : String → List RawSubmission)
    (subreddits : List String) (collection_period : String) (today : Int) :
    Option (List RedditSubmission) :=
  match daysOfPeriod collection_period with
  | none => none
  | some days =>
    let filter_date := today - days
    some
      (subreddits.foldl
        (fun (st : List String × List RedditSubmission) subreddit_name =>
          (listing (clean_subreddit_name subreddit_name)).foldl
            (fun st raw =>
              if st.1.contains raw.id then st
              else
                let seen := raw.id :: st.1
                let submission := RedditSubmission.ofRaw raw
                if filter_date < submission.created then (seen, st.2 ++ [submission])
                else (seen, st.2))
            st)
        ([], [])).2

/-- `FetchRedditSubmissionsByUsers` (src/reddit/hatinh.py lines 136–167): like
the subreddit fetcher, but over each user's listing, skipping items that are
comments rather than submissions; user names are not cleaned. -/
def FetchRedditSubmissionsByUsers (listing : String → List RawItem)
    (users : List String) (collection_period : String) (today : Int) :
    Option (List RedditSubmission) :=
  match daysOfPeriod collection_period with
  | none => none
  | some days =>
    let filter_date := today - days
    some
      (users.foldl
        (fun (st : List String × List RedditSubmission) user =>
          (listing user).foldl
            (fun st item =>
              match item with
              | RawItem.comment _ => st
              | RawItem.submission raw =>
                if st.1.contains raw.id then st
                else
                  let seen := raw.id :: st.1
                  let submission := RedditSubmission.ofRaw raw
                  if filter_date < submission.created then (seen, st.2 ++ [submission])
                  else (seen, st.2))
            st)
        ([], [])).2

deriving instance DecidableEq for Except

/-!
## Helper lemmas
-/

/-- A property preserved by every step of a fold holds of the fold's result. -/
theorem foldlInv {α σ : Type _} {P : σ → Prop} {f : σ → α → σ}
    (hstep : ∀ s a, P s → P (f s a)) :
    ∀ (l : List α) (s : σ), P s → P (l.foldl f s)
  | [], _, hs => hs
  | a :: l, s, hs => foldlInv hstep l (f s a) (hstep s a hs)

/-- The exact-match property of the claims: the lower-cased query occurs in
the record's lower-cased title or lower-cased body text. -/
def MatchesQ (query : String) (r : RedditSubmission) : Prop :=
  strContains (strToLower query) (strToLower r.title) = true ∨
  strContains (strToLower query) (strToLower r.text) = true

theorem matchesQ_ofRaw {query : String} {a : RawSubmission}
    (h : query_in_submission query a = true) :
    MatchesQ query (RedditSubmission.ofRaw a) := by
  unfold query_in_submission at h
  simp only [Bool.or_eq_true] at h
  exact h

theorem processResults_matches (query : String) (raws : List RawSubmission)
    (st : SearchState) (h : ∀ r ∈ st.out, MatchesQ query r) :
    ∀ r ∈ (processResults query raws st).out, MatchesQ query r := by
  refine foldlInv (P := fun st => ∀ r ∈ st.out, MatchesQ query r) ?_ raws st h
  intro s a hs
  dsimp only
  cases hc : s.seen.contains a.id with
  | true => simpa [hc] using hs
  | false =>
    cases hm : query_in_submission query a with
    | true =>
      simp only [hc, hm, Bool.false_eq_true, if_false, if_true]
      intro r hr
      rcases List.mem_append.mp hr with hr | hr
      · exact hs r hr
      · rcases List.mem_singleton.mp hr with rfl
        exact matchesQ_ofRaw hm
    | false => simpa [hc, hm] using hs

theorem searchSubreddit_matches (transport : Transport)
    (search_query query time_filter : String) (limit : Option Nat)
    (sorts : List String) (subreddit_name : String) (st : SearchState)
    (h : ∀ r ∈ st.out, MatchesQ query r) :
    ∀ r ∈ (searchSubreddit transport search_query query time_filter limit
      sorts subreddit_name st).out, MatchesQ query r := by
  cases sorts with
  | nil => exact h
  | cons sort0 rest =>
    rw [searchSubreddit]
    have h1 := processResults_matches query
      (transport search_query subreddit_name sort0 time_filter limit)
      { st with queries := st.queries ++ [(subreddit_name, sort0)] } h
    split
    · refine foldlInv (P := fun (st : SearchState) => ∀ r ∈ st.out, MatchesQ query r) ?_ rest _ h1
      intro s a hs
      exact processResults_matches query _ _ hs
    · exact h1

/-- C1: every record yielded by `Reddit.search`, for any transport behaviour,
contains the lower-cased query in its lower-cased title or body text. -/
theorem searchYieldsOnlyExactMatches (transport : Transport) (query : String)
    (subreddits : List String) (time_filter : String) (limit : Option Nat)
    (search_sort : Option String) (r : RedditSubmission)
    (hr : r ∈ (Reddit.search transport query subreddits
      time_filter limit search_sort).out) :
    MatchesQ query r := by
  have H := foldlInv
    (f := fun st subreddit_name => searchSubreddit transport (searchQueryFor query) query
      time_filter limit (searchSorts search_sort) subreddit_name st)
    (P := fun st => ∀ r ∈ st.out, MatchesQ query r)
    (fun s a hs => searchSubreddit_matches transport (searchQueryFor query) query
      time_filter limit (searchSorts search_sort) a s hs)
    subreddits ⟨[], [], []⟩ (by simp)
  exact H r hr

/-- The concrete raw post and transport used to instantiate C1. -/
def w1raw : RawSubmission :=
  { id := "w1", author := "ann", subreddit := "news", created_utc := 86400,
    title := "The CAT sat", selftext := "", permalink := "/p/w1", url := "",
    score := 3, num_comments := 1, upvote_ratio := 0 }

def w1transport : Transport := fun _ _ sort _ _ =>
  if sort = "relevance" then [w1raw] else []

theorem searchYieldsOnlyExactMatches_witness :
    MatchesQ "cAt" (RedditSubmission.ofRaw w1raw) :=
  searchYieldsOnlyExactMatches w1transport "cAt" ["news"] "year" none none
    (RedditSubmission.ofRaw w1raw) (by decide)

/-!
## C2: id uniqueness within one call
-/

/-- The dedup invariant each loop maintains: the ids yielded so far are
pairwise distinct, and each of them has been recorded in the seen set. -/
def IdsNodup (out : List RedditSubmission) (seen : List String) : Prop :=
  (out.map (fun r => r.id)).Nodup ∧ ∀ r ∈ out, r.id ∈ seen

theorem idsNodup_push {out : List RedditSubmission} {seen : List String}
    {sub : RedditSubmission} (h : IdsNodup out seen) (hs : sub.id ∉ seen) :
    IdsNodup (out ++ [sub]) (sub.id :: seen) := by
  obtain ⟨h1, h2⟩ := h
  constructor
  · rw [List.map_append]
    refine List.Nodup.append h1 (by simp) ?_
    intro x hx hy
    simp only [List.map_cons, List.map_nil, List.mem_singleton] at hy
    subst hy
    obtain ⟨r, hr, hrid⟩ := List.mem_map.mp hx
    exact hs (hrid ▸ h2 r hr)
  · intro r hr
    rcases List.mem_append.mp hr with hr | hr
    · exact List.mem_cons_of_mem _ (h2 r hr)
    · rcases List.mem_singleton.mp hr with rfl
      exact List.mem_cons_self _ _

theorem idsNodup_keep {out : List RedditSubmission} {seen : List String}
    (id : String) (h : IdsNodup out seen) : IdsNodup out (id :: seen) :=
  ⟨h.1, fun r hr => List.mem_cons_of_mem _ (h.2 r hr)⟩

theorem processResults_nodup (query : String) (raws : List RawSubmission)
    (st : SearchState) (h : IdsNodup st.out st.seen) :
    IdsNodup (processResults query raws st).out (processResults query raws st).seen := by
  refine foldlInv (P := fun (st : SearchState) => IdsNodup st.out st.seen) ?_ raws st h
  intro s a hs
  dsimp only
  cases hc : s.seen.contains a.id with
  | true => simpa [hc] using hs
  | false =>
    have ha : a.id ∉ s.seen := by simpa using hc
    cases hm : query_in_submission query a with
    | true =>
      simp only [hc, hm, Bool.false_eq_true, if_false, if_true]
      exact idsNodup_push hs ha
    | false =>
      simp only [hc, hm, Bool.false_eq_true, if_false]
      exact idsNodup_keep _ hs

theorem searchSubreddit_nodup (transport : Transport)
    (search_query query time_filter : String) (limit : Option Nat)
    (sorts : List String) (subreddit_name : String) (st : SearchState)
    (h : IdsNodup st.out st.seen) :
    IdsNodup (searchSubreddit transport search_query query time_filter limit
        sorts subreddit_name st).out
      (searchSubreddit transport search_query query time_filter limit
        sorts subreddit_name st).seen := by
  cases sorts with
  | nil => exact h
  | cons sort0 rest =>
    rw [searchSubreddit]
    have h1 := processResults_nodup query
      (transport search_query subreddit_name sort0 time_filter limit)
      { st with queries := st.queries ++ [(subreddit_name, sort0)] } h
    split
    · refine foldlInv (P := fun (st : SearchState) => IdsNodup st.out st.seen) ?_ rest _ h1
      intro s a hs
      exact processResults_nodup query _ _ hs
    · exact h1

theorem search_nodup (transport : Transport) (query : String)
    (subreddits : List String) (time_filter : String) (limit : Option Nat)
    (search_sort : Option String) :
    ((Reddit.search transport query subreddits time_filter limit search_sort).out.map
      (fun r => r.id)).Nodup := by
  have H := foldlInv
    (f := fun st subreddit_name => searchSubreddit transport (searchQueryFor query) query
      time_filter limit (searchSorts search_sort) subreddit_name st)
    (P := fun (st : SearchState) => IdsNodup st.out st.seen)
    (fun s a hs => searchSubreddit_nodup transport (searchQueryFor query) query
      time_filter limit (searchSorts search_sort) a s hs)
    subreddits ⟨[], [], []⟩ ⟨by simp, by simp⟩
  exact H.1

theorem multiTermInnerStep_nodup (st : MultiTermState) (sub : RedditSubmission)
    (h : IdsNodup st.out st.s) :
    IdsNodup (multiTermInnerStep st sub).out (multiTermInnerStep st sub).s := by
  unfold multiTermInnerStep
  cases hc : st.s.contains sub.id with
  | true => simpa [hc] using h
  | false =>
    have ha : sub.id ∉ st.s := by simpa using hc
    simp only [hc, Bool.false_eq_true, if_false]
    exact idsNodup_push h ha

theorem multiTermStep_nodup (transport : Transport) (subreddit_name : String)
    (search_sort : Option String) (st : MultiTermState) (query : String)
    (h : IdsNodup st.out st.s) :
    IdsNodup (multiTermStep transport subreddit_name search_sort st query).out
      (multiTermStep transport subreddit_name search_sort st query).s := by
  unfold multiTermStep
  split
  · exact h
  · refine foldlInv (P := fun (st : MultiTermState) => IdsNodup st.out st.s) ?_ _ _ h
    intro s a hs
    exact multiTermInnerStep_nodup s a hs

theorem multiterm_nodup (transport : Transport) (search_terms : List String)
    (subreddit_name : String) (search_sort : Option String) :
    ((Reddit.search_for_multiple_terms transport search_terms subreddit_name
      search_sort).out.map (fun r => r.id)).Nodup := by
  have H := foldlInv
    (f := multiTermStep transport subreddit_name search_sort)
    (P := fun (st : MultiTermState) => IdsNodup st.out st.s)
    (fun s a hs => multiTermStep_nodup transport subreddit_name search_sort s a hs)
    search_terms ⟨[], [], []⟩ ⟨by simp, by simp⟩
  exact H.1

theorem fetchIn_nodup (listing : String → List RawSubmission)
    (subreddits : List String) (collection_period : String) (today : Int)
    (res : List RedditSubmission)
    (h : FetchRedditSubmissionsInSubreddits listing subreddits collection_period today
      = some res) :
    (res.map (fun r => r.id)).Nodup := by
  unfold FetchRedditSubmissionsInSubreddits at h
  cases hd : daysOfPeriod collection_period with
  | none => rw [hd] at h; exact absurd h (by simp)
  | some days =>
    rw [hd] at h
    simp only [Option.some.injEq] at h
    subst h
    refine (foldlInv
      (P := fun (st : List String × List RedditSubmission) => IdsNodup st.2 st.1)
      ?_ subreddits ([], []) ⟨by simp, by simp⟩).1
    intro s name hs
    refine foldlInv
      (P := fun (st : List String × List RedditSubmission) => IdsNodup st.2 st.1)
      ?_ (listing (clean_subreddit_name name)) s hs
    intro s' raw hs'
    dsimp only
    cases hc : s'.1.contains raw.id with
    | true => rw [if_pos rfl]; exact hs'
    | false =>
      have ha : raw.id ∉ s'.1 := by simpa using hc
      simp only [hc, Bool.false_eq_true, if_false]
      split
      · exact idsNodup_push hs' ha
      · exact idsNodup_keep _ hs'

theorem fetchByUsers_nodup (listing : String → List RawItem)
    (users : List String) (collection_period : String) (today : Int)
    (res : List RedditSubmission)
    (h : FetchRedditSubmissionsByUsers listing users collection_period today = some res) :
    (res.map (fun r => r.id)).Nodup := by
  unfold FetchRedditSubmissionsByUsers at h
  cases hd : daysOfPeriod collection_period with
  | none => rw [hd] at h; exact absurd h (by simp)
  | some days =>
    rw [hd] at h
    simp only [Option.some.injEq] at h
    subst h
    refine (foldlInv
      (P := fun (st : List String × List RedditSubmission) => IdsNodup st.2 st.1)
      ?_ users ([], []) ⟨by simp, by simp⟩).1
    intro s user hs
    refine foldlInv
      (P := fun (st : List String × List RedditSubmission) => IdsNodup st.2 st.1)
      ?_ (listing user) s hs
    intro s' item hs'
    dsimp only
    cases item with
    | comment _ => exact hs'
    | submission raw =>
      dsimp only
      cases hc : s'.1.contains raw.id with
      | true => rw [if_pos rfl]; exact hs'
      | false =>
        have ha : raw.id ∉ s'.1 := by simpa using hc
        simp only [hc, Bool.false_eq_true, if_false]
        split
        · exact idsNodup_push hs' ha
        · exact idsNodup_keep _ hs'

/-- C2: within one call to `Reddit.search`, to
`Reddit.search_for_multiple_terms`, or to either windowed fetcher, no two
yielded/returned records share an id, whatever raw results the transport
returns. -/
theorem noDuplicateIdsPerCall :
    (∀ (transport : Transport) (query : String) (subreddits : List String)
        (time_filter : String) (limit : Option Nat) (search_sort : Option String),
      ((Reddit.search transport query subreddits time_filter limit search_sort).out.map
        (fun r => r.id)).Nodup)
  ∧ (∀ (transport : Transport) (search_terms : List String) (subreddit_name : String)
        (search_sort : Option String),
      ((Reddit.search_for_multiple_terms transport search_terms subreddit_name
        search_sort).out.map (fun r => r.id)).Nodup)
  ∧ (∀ (listing : String → List RawSubmission) (subreddits : List String)
        (collection_period : String) (today : Int) (res : List RedditSubmission),
      FetchRedditSubmissionsInSubreddits listing subreddits collection_period today
        = some res → (res.map (fun r => r.id)).Nodup)
  ∧ (∀ (listing : String → List RawItem) (users : List String)
        (collection_period : String) (today : Int) (res : List RedditSubmission),
      FetchRedditSubmissionsByUsers listing users collection_period today
        = some res → (res.map (fun r => r.id)).Nodup) :=
  ⟨search_nodup, multiterm_nodup, fetchIn_nodup, fetchByUsers_nodup⟩

/-- A raw post inside the collection window (created on day 1000). -/
def wfRaw : RawSubmission :=
  { id := "d1", author := "bo", subreddit := "s", created_utc := 86400000,
    title := "fresh", selftext := "", permalink := "/p/d1", url := "",
    score := 2, num_comments := 0, upvote_ratio := 0 }

/-- A raw post outside the collection window (created on day 999). -/
def wsRaw : RawSubmission :=
  { id := "d2", author := "bo", subreddit := "s", created_utc := 86313600,
    title := "stale", selftext := "", permalink := "/p/d2", url := "",
    score := 1, num_comments := 0, upvote_ratio := 0 }

theorem noDuplicateIdsPerCall_witness :
    (([RedditSubmission.ofRaw wfRaw].map (fun r => r.id)).Nodup) :=
  noDuplicateIdsPerCall.2.2.1 (fun _ => [wfRaw, wfRaw]) ["s"] "D" 1000
    [RedditSubmission.ofRaw wfRaw] (by decide)

/-!
## C3: the 250-result cascade threshold
-/

/-- 250 distinct raw posts: what channel "a"'s first-sort query returns on
`cascadeTransport`. -/
def manyRaws : List RawSubmission :=
  (List.range 250).map (fun i =>
    { id := Nat.repr i, author := "a", subreddit := "a", created_utc := 0,
      title := "", selftext := "", permalink := "", url := "",
      score := 0, num_comments := 0, upvote_ratio := 0 })

/-- A transport on which channel "a"'s first-sort query returns 250 results
and channel "b"'s own first-sort query returns a single result. -/
def cascadeTransport : Transport := fun _ subreddit_name sort _ _ =>
  if subreddit_name = "a" && sort = "relevance" then manyRaws
  else if subreddit_name = "b" && sort = "relevance" then
    [{ id := "b1", author := "b", subreddit := "b", created_utc := 0,
       title := "", selftext := "", permalink := "", url := "",
       score := 0, num_comments := 0, upvote_ratio := 0 }]
  else []

set_option maxRecDepth 100000 in
set_option maxHeartbeats 4000000 in
/-- C3 is false as stated: on `cascadeTransport`, channel "b"'s own first-sort
query yields one result (far below 250), yet `Reddit.search` issues all five
sort queries for "b", because the threshold is tested against the cumulative
seen-id count of the whole call (250 ids from channel "a"), not against the
channel's own count. -/
theorem cascadeShortCircuit_cex :
    (cascadeTransport (searchQueryFor "q") "b" "relevance" "year" none).length < 250 ∧
    1 < ((Reddit.search cascadeTransport "q" ["a", "b"] "year" none none).queries.filter
      (fun p => p.1 == "b")).length := by decide

/-- C3 amended: if, after a channel's first-sort query has been processed, the
cumulative number of distinct ids seen across the whole call (earlier channels
included) is still below 250, then no additional sort query is issued for that
channel — the channel's step returns the first-sort state unchanged.  The
second conjunct records that `Reddit.search` with `sort` unset is exactly the
fold of this per-channel step over the channel list. -/
theorem cascadeShortCircuitAmended (transport : Transport)
    (query time_filter : String) (limit : Option Nat) (subreddit_name : String)
    (st : SearchState) (subreddits : List String)
    (h : (processResults query
        (transport (searchQueryFor query) subreddit_name "relevance" time_filter limit)
        { st with queries := st.queries ++ [(subreddit_name, "relevance")] }).seen.length
      < 250) :
    searchSubreddit transport (searchQueryFor query) query time_filter limit
        (searchSorts none) subreddit_name st
      = processResults query
          (transport (searchQueryFor query) subreddit_name "relevance" time_filter limit)
          { st with queries := st.queries ++ [(subreddit_name, "relevance")] } ∧
    Reddit.search transport query subreddits time_filter limit none
      = subreddits.foldl
          (fun st name => searchSubreddit transport (searchQueryFor query) query
            time_filter limit (searchSorts none) name st) ⟨[], [], []⟩ := by
  constructor
  · have hs : searchSorts none = "relevance" :: ["hot", "top", "new", "comments"] := rfl
    rw [hs, searchSubreddit]
    rw [if_neg (Nat.not_le.mpr h)]
  · rfl

/-- A transport that returns no results at all. -/
def quietTransport : Transport := fun _ _ _ _ _ => []

theorem cascadeShortCircuitAmended_witness :
    searchSubreddit quietTransport (searchQueryFor "q") "q" "year" none
        (searchSorts none) "c" ⟨[], [], []⟩
      = processResults "q" (quietTransport (searchQueryFor "q") "c" "relevance" "year" none)
          { seen := [], out := [], queries := [("c", "relevance")] } ∧
    Reddit.search quietTransport "q" ["c"] "year" none none
      = [("c" : String)].foldl
          (fun st name => searchSubreddit quietTransport (searchQueryFor "q") "q"
            "year" none (searchSorts none) name st) ⟨[], [], []⟩ :=
  cascadeShortCircuitAmended quietTransport "q" "year" none "c" ⟨[], [], []⟩ ["c"]
    (by decide)

/-!
## C4: the downvote estimate
-/

/-- The raw post on which Python truncation (toward zero) and mathematical
floor disagree: score −1, upvote ratio 3/4, so score/ratio = −4/3. -/
def negRaw : RawSubmission :=
  { id := "n1", author := "n", subreddit := "s", created_utc := 0,
    title := "t", selftext := "", permalink := "", url := "",
    score := -1, num_comments := 0, upvote_ratio := 3/4 }

/-- C4 is false as stated for negative scores: the code computes
`int(-1 / 0.75) - (-1) = -1 + 1 = 0` (truncation toward zero), while the
claimed floor formula gives `⌊-4/3⌋ + 1 = -1`. -/
theorem downvotesFloor_cex :
    (RedditSubmission.ofRaw negRaw).downvotes ≠
      ⌊(negRaw.score : ℚ) / negRaw.upvote_ratio⌋ - negRaw.score := by
  have h1 : (RedditSubmission.ofRaw negRaw).downvotes = 0 := by
    show (if ((3:ℚ)/4) = 0 then 0
      else ratTrunc (((-1 : ℤ) : ℚ) / ((3:ℚ)/4)) - (-1 : ℤ)) = 0
    rw [if_neg (by norm_num)]
    rw [show ((((-1 : ℤ) : ℚ)) / ((3:ℚ)/4)) = -(4/3) by norm_num]
    rw [ratTrunc, if_neg (by norm_num), Int.ceil_neg]
    norm_num
  have h2 : ⌊(negRaw.score : ℚ) / negRaw.upvote_ratio⌋ - negRaw.score = -1 := by
    show ⌊(((-1 : ℤ) : ℚ)) / ((3:ℚ)/4)⌋ - (-1 : ℤ) = -1
    rw [show ((((-1 : ℤ) : ℚ)) / ((3:ℚ)/4)) = -(4/3) by norm_num]
    norm_num
  rw [h1, h2]
  decide

/-- C4 amended: `downvotes` is `0` when the ratio is zero and otherwise
`int(score/ratio) - score` with Python's truncation toward zero; for
non-negative scores (and a ratio in [0, 1], hence non-negative) this agrees
with the claimed floor formula, but for negative scores it rounds toward zero
instead of down. -/
theorem downvotesFormula (submission : RawSubmission)
    (hs : 0 ≤ submission.score) (hr : 0 ≤ submission.upvote_ratio) :
    (RedditSubmission.ofRaw submission).downvotes =
      if submission.upvote_ratio = 0 then 0
      else ⌊(submission.score : ℚ) / submission.upvote_ratio⌋ - submission.score := by
  show (if submission.upvote_ratio = 0 then 0
      else ratTrunc ((submission.score : ℚ) / submission.upvote_ratio)
        - submission.score) = _
  by_cases h0 : submission.upvote_ratio = 0
  · rw [if_pos h0, if_pos h0]
  · rw [if_neg h0, if_neg h0]
    congr 1
    rw [ratTrunc, if_pos]
    exact div_nonneg (by exact_mod_cast hs) hr

/-- The raw post of the spec's worked aggregation example with score 4 and
ratio 4/5. -/
def w4raw : RawSubmission :=
  { id := "w4", author := "w", subreddit := "s", created_utc := 0,
    title := "t", selftext := "", permalink := "", url := "",
    score := 4, num_comments := 1, upvote_ratio := 4/5 }

theorem downvotesFormula_witness :
    (RedditSubmission.ofRaw w4raw).downvotes =
      if w4raw.upvote_ratio = 0 then 0
      else ⌊(w4raw.score : ℚ) / w4raw.upvote_ratio⌋ - w4raw.score :=
  downvotesFormula w4raw (by decide) (by norm_num [w4raw])

/-!
## C5: entity URL normalization
-/

/-- C5 is wrong about the code in both of its named cases, and the code wrong
about the spec's degrade-to-empty policy: with the constructor's own default
`url=None`, construction succeeds but the normalized URL is the 6-character
string `b''b''` (the bytes reprs of `urlparse(None)`'s components inserted by
`'{}{}'.format`), not the empty string; with a `str` URL whose host+path is
empty (`''`, or the scheme-only `'https:'`), `simple_url[-1]` is evaluated on
the empty string and construction fails with `IndexError`.  A well-formed URL
is normalized as specified (scheme stripped, host+path kept, one trailing
slash removed). -/
theorem gameUrlDegradeFails :
    Game.mk' 7 "Elden Ring" none
      = Except.ok { gameId := 7, name := "Elden Ring",
                    simple_url := "b\x27\x27b\x27\x27", url := none } ∧
    Game.mk' 7 "Elden Ring" (some "") = Except.error "IndexError" ∧
    Game.mk' 7 "Elden Ring" (some "https:") = Except.error "IndexError" ∧
    Game.mk' 7 "Elden Ring" (some "https://example.com/path/")
      = Except.ok { gameId := 7, name := "Elden Ring",
                    simple_url := "example.com/path",
                    url := some "https://example.com/path/" } := by decide

/-!
## C6, C7, C10: aggregation
-/

theorem sum_map_one (l : List RedditSubmission) :
    (l.map (fun _ => (1 : Int))).sum = (l.length : Int) := by
  induction l with
  | nil => simp
  | cons a t ih =>
    simp only [List.map_cons, List.sum_cons, ih, List.length_cons]
    push_cast
    omega

/-- On a non-empty bucket the zip/sum construction of
`RedditAggregationData.__init__` computes the four column sums. -/
theorem RedditAggregationData.mk'_cons (today : Int) (gameId : Nat) (date : Int)
    (a : RedditSubmission) (l : List RedditSubmission) :
    RedditAggregationData.mk' today gameId date (a :: l) = some
      { gameId := gameId, date := date,
        comments := ((a :: l).map (fun s => (s.comments : Int))).sum,
        submissions := ((a :: l).length : Int),
        upvotes := ((a :: l).map (fun s => s.upvotes)).sum,
        downvotes := ((a :: l).map (fun s => s.downvotes)).sum,
        date_of_request := today } := by
  unfold RedditAggregationData.mk'
  simp only [List.map_cons, List.map_map, List.sum_cons, Option.some.injEq,
    Function.comp_def, RedditAggregationData.mk.injEq, true_and, and_true]
  rw [sum_map_one, List.length_cons]
  push_cast
  omega

/-- A submission record with a negative score, as the platform can produce
(scores are signed). -/
def negSub : RedditSubmission :=
  { redditUsername := "u", subreddit := "s", created := 0, title := "t",
    text := "", url := "", external_url := "", upvotes := -5, comments := 0,
    id := "neg", downvotes := 0 }

/-- C6 is false as stated: aggregating the single record `negSub` (score −5)
produces an `upvotes` sum of −5, which is negative. -/
theorem aggNonneg_cex :
    (RedditAggregationData.mk' 0 1 0 [negSub]).map (fun g => g.upvotes)
      = some (-5) ∧ ¬ (0 : ℤ) ≤ -5 := by decide

/-- C6 amended: `submissions` (the record count) and `comments` (a sum of
non-negative comment counts) are non-negative in every aggregate the
constructor produces; the score sums `upvotes` and `downvotes` need not be,
because scores are signed. -/
theorem aggCountsNonneg (today : Int) (gameId : Nat) (date : Int)
    (submissions : List RedditSubmission) (g : RedditAggregationData)
    (h : RedditAggregationData.mk' today gameId date submissions = some g) :
    0 ≤ g.submissions ∧ 0 ≤ g.comments := by
  cases submissions with
  | nil => exact absurd h (by simp [RedditAggregationData.mk'])
  | cons a l =>
    rw [RedditAggregationData.mk'_cons] at h
    simp only [Option.some.injEq] at h
    subst h
    constructor
    · exact Int.natCast_nonneg _
    · apply List.sum_nonneg
      intro x hx
      obtain ⟨s, _, rfl⟩ := List.mem_map.mp hx
      exact Int.natCast_nonneg _

theorem aggCountsNonneg_witness : 0 ≤ (1 : ℤ) ∧ 0 ≤ (0 : ℤ) :=
  aggCountsNonneg 0 1 0 [negSub]
    { gameId := 1, date := 0, comments := 0, submissions := 1,
      upvotes := -5, downvotes := 0, date_of_request := 0 } (by decide)

/-- C7: on every non-empty bucket the aggregate's fields are the record
count, the comment-count sum, the score sum and the downvote-estimate sum. -/
theorem aggregationSums (today : Int) (gameId : Nat) (date : Int)
    (submissions : List RedditSubmission) (h : submissions ≠ []) :
    RedditAggregationData.mk' today gameId date submissions = some
      { gameId := gameId, date := date,
        comments := (submissions.map (fun s => (s.comments : Int))).sum,
        submissions := (submissions.length : Int),
        upvotes := (submissions.map (fun s => s.upvotes)).sum,
        downvotes := (submissions.map (fun s => s.downvotes)).sum,
        date_of_request := today } := by
  cases submissions with
  | nil => exact absurd rfl h
  | cons a l => exact RedditAggregationData.mk'_cons today gameId date a l

/-- The first raw post of the spec's worked example: 2 comments, score 10,
ratio 1/2. -/
def exRaw1 : RawSubmission :=
  { id := "e1", author := "x", subreddit := "s", created_utc := 0,
    title := "t", selftext := "", permalink := "", url := "",
    score := 10, num_comments := 2, upvote_ratio := 1/2 }

theorem aggregationSums_witness :
    RedditAggregationData.mk' 42 9 17
        [RedditSubmission.ofRaw exRaw1, RedditSubmission.ofRaw w4raw]
      = some { gameId := 9, date := 17, comments := 3, submissions := 2,
               upvotes := 14, downvotes := 11, date_of_request := 42 } := by
  rw [aggregationSums 42 9 17
    [RedditSubmission.ofRaw exRaw1, RedditSubmission.ofRaw w4raw] (by decide)]
  norm_num [RedditSubmission.ofRaw, exRaw1, w4raw, ratTrunc]

theorem insertByCreated_nonempty (acc : List (Int × List RedditSubmission))
    (s : RedditSubmission) (h : ∀ p ∈ acc, p.2 ≠ []) :
    ∀ p ∈ insertByCreated acc s, p.2 ≠ [] := by
  induction acc with
  | nil =>
    intro p hp
    rcases List.mem_singleton.mp hp with rfl
    simp
  | cons q rest ih =>
    obtain ⟨d, l⟩ := q
    intro p hp
    rw [insertByCreated] at hp
    split at hp
    · rcases List.mem_cons.mp hp with rfl | hp
      · simp
      · exact h p (List.mem_cons_of_mem _ hp)
    · rcases List.mem_cons.mp hp with rfl | hp
      · exact h _ (List.mem_cons_self _ _)
      · exact ih (fun p hp => h p (List.mem_cons_of_mem _ hp)) p hp

/-- C10: building an aggregate succeeds exactly on non-empty buckets (on an
empty one the zipped sum collapses and the field lookup raises `KeyError`),
and the bucketing by created-date used by `FetchRedditDataForGames` only ever
produces non-empty buckets — so a date with zero collected submissions never
yields an aggregate record. -/
theorem aggregationNeedsNonempty :
    (∀ (today : Int) (gameId : Nat) (date : Int)
        (submissions : List RedditSubmission),
      (RedditAggregationData.mk' today gameId date submissions).isSome
        ↔ submissions ≠ [])
  ∧ (∀ (submissions : List RedditSubmission) (p : Int × List RedditSubmission),
      p ∈ groupByCreated submissions → p.2 ≠ []) := by
  constructor
  · intro today gameId date submissions
    cases submissions with
    | nil => simp [RedditAggregationData.mk']
    | cons a l => rw [RedditAggregationData.mk'_cons]; simp
  · intro submissions
    refine foldlInv
      (P := fun (acc : List (Int × List RedditSubmission)) => ∀ p ∈ acc, p.2 ≠ [])
      ?_ submissions [] (by simp)
    intro acc s hacc
    exact insertByCreated_nonempty acc s hacc

theorem aggregationNeedsNonempty_witness :
    (RedditAggregationData.mk' 3 2 1 [negSub]).isSome :=
  (aggregationNeedsNonempty.1 3 2 1 [negSub]).mpr (by decide)

/-!
## C8: the windowed fetchers' date cutoff
-/

/-- C8: with a valid period (D/W/M/Y mapped to 1/7/30/365 days), every record
either windowed fetcher returns was created strictly after `today - days`;
items at or before the cutoff are never returned. -/
theorem windowCutoff :
    (∀ (listing : String → List RawSubmission) (subreddits : List String)
        (collection_period : String) (today days : Int)
        (res : List RedditSubmission),
      daysOfPeriod collection_period = some days →
      FetchRedditSubmissionsInSubreddits listing subreddits collection_period today
        = some res →
      ∀ r ∈ res, today - days < r.created)
  ∧ (∀ (listing : String → List RawItem) (users : List String)
        (collection_period : String) (today days : Int)
        (res : List RedditSubmission),
      daysOfPeriod collection_period = some days →
      FetchRedditSubmissionsByUsers listing users collection_period today = some res →
      ∀ r ∈ res, today - days < r.created)
  ∧ daysOfPeriod "D" = some 1 ∧ daysOfPeriod "W" = some 7
  ∧ daysOfPeriod "M" = some 30 ∧ daysOfPeriod "Y" = some 365 := by
  refine ⟨?_, ?_, rfl, rfl, rfl, rfl⟩
  · intro listing subreddits collection_period today days res hd h
    unfold FetchRedditSubmissionsInSubreddits at h
    rw [hd] at h
    simp only [Option.some.injEq] at h
    subst h
    refine (foldlInv
      (P := fun (st : List String × List RedditSubmission) =>
        ∀ r ∈ st.2, today - days < r.created)
      ?_ subreddits ([], []) (by simp))
    intro s name hs
    refine foldlInv
      (P := fun (st : List String × List RedditSubmission) =>
        ∀ r ∈ st.2, today - days < r.created)
      ?_ (listing (clean_subreddit_name name)) s hs
    intro s' raw hs'
    dsimp only
    cases hc : s'.1.contains raw.id with
    | true => rw [if_pos rfl]; exact hs'
    | false =>
      simp only [Bool.false_eq_true, if_false]
      split
      · rename_i hlt
        intro r hr
        rcases List.mem_append.mp hr with hr | hr
        · exact hs' r hr
        · rcases List.mem_singleton.mp hr with rfl
          exact hlt
      · exact hs'
  · intro listing users collection_period today days res hd h
    unfold FetchRedditSubmissionsByUsers at h
    rw [hd] at h
    simp only [Option.some.injEq] at h
    subst h
    refine (foldlInv
      (P := fun (st : List String × List RedditSubmission) =>
        ∀ r ∈ st.2, today - days < r.created)
      ?_ users ([], []) (by simp))
    intro s user hs
    refine foldlInv
      (P := fun (st : List String × List RedditSubmission) =>
        ∀ r ∈ st.2, today - days < r.created)
      ?_ (listing user) s hs
    intro s' item hs'
    dsimp only
    cases item with
    | comment _ => exact hs'
    | submission raw =>
      dsimp only
      cases hc : s'.1.contains raw.id with
      | true => rw [if_pos rfl]; exact hs'
      | false =>
        simp only [Bool.false_eq_true, if_false]
        split
        · rename_i hlt
          intro r hr
          rcases List.mem_append.mp hr with hr | hr
          · exact hs' r hr
          · rcases List.mem_singleton.mp hr with rfl
            exact hlt
        · exact hs'

theorem windowCutoff_witness :
    (1000 : ℤ) - 1 < (RedditSubmission.ofRaw wfRaw).created :=
  windowCutoff.1 (fun _ => [wfRaw, wsRaw]) ["r/s"] "D" 1000 1
    [RedditSubmission.ofRaw wfRaw] (by decide) (by decide)
    (RedditSubmission.ofRaw wfRaw) (by decide)

/-!
## C9: empty terms are skipped
-/

theorem multiTermInner_issued (results : List RedditSubmission) (st : MultiTermState) :
    (results.foldl multiTermInnerStep st).issued = st.issued := by
  induction results generalizing st with
  | nil => rfl
  | cons a t ih =>
    rw [List.foldl_cons, ih]
    unfold multiTermInnerStep
    split
    · rfl
    · rfl

theorem multiTermStep_issued (transport : Transport) (subreddit_name : String)
    (search_sort : Option String) (st : MultiTermState) (query : String) :
    (multiTermStep transport subreddit_name search_sort st query).issued =
      if query.isEmpty then st.issued else st.issued ++ [query] := by
  unfold multiTermStep
  split
  · rfl
  · rw [multiTermInner_issued]

theorem multiTermFold_issued (transport : Transport) (subreddit_name : String)
    (search_sort : Option String) :
    ∀ (terms : List String) (st : MultiTermState),
      ((terms.foldl (multiTermStep transport subreddit_name search_sort) st).issued)
        = st.issued ++ terms.filter (fun t => !t.isEmpty) := by
  intro terms
  induction terms with
  | nil => intro st; simp
  | cons a t ih =>
    intro st
    rw [List.foldl_cons, ih, multiTermStep_issued, List.filter_cons]
    cases he : a.isEmpty with
    | true => simp [he]
    | false => simp [he]

/-- C9: `search_for_multiple_terms` issues one underlying `self.search` call
per non-empty term, in order, and never one for an empty (falsy) term; in
particular `["", "cat"]` issues exactly the one query for `"cat"`. -/
theorem multiTermSkipsEmptyTerms :
    (∀ (transport : Transport) (search_terms : List String)
        (subreddit_name : String) (search_sort : Option String),
      (Reddit.search_for_multiple_terms transport search_terms subreddit_name
        search_sort).issued = search_terms.filter (fun t => !t.isEmpty))
  ∧ (∀ (transport : Transport) (subreddit_name : String)
        (search_sort : Option String),
      (Reddit.search_for_multiple_terms transport ["", "cat"] subreddit_name
        search_sort).issued = ["cat"]) := by
  constructor
  · intro transport search_terms subreddit_name search_sort
    simpa using
      multiTermFold_issued transport subreddit_name search_sort search_terms ⟨[], [], []⟩
  · intro transport subreddit_name search_sort
    exact (multiTermFold_issued transport subreddit_name search_sort
      ["", "cat"] ⟨[], [], []⟩).trans rfl
